import Mathlib

/-!
Shallow embedding of `src/scripts/archive-shows.ts` (the show-archiving
utility of the dutch-queen-mainband repository) and proofs about it.

Modelling conventions:
* A JavaScript `Date` value is modelled as an `Int`: milliseconds since the
  Unix epoch.  Local time is identified with UTC (no DST), so
  `setHours(0,0,0,0)` is flooring to a multiple of `msPerDay`.
* `new Date(string)` for strings that already matched the script's surface
  regex is modelled after V8's legacy parser: a case-insensitive three-letter
  month abbreviation, a day in `1..31` (other values give an invalid date),
  and day overflow past the month length rolling into the next month
  (`MakeDay` semantics, e.g. `"Feb 30, 2025"` parses as Mar 2 2025).
* The JS regex class `\s` is modelled over ASCII whitespace.
-/

-- ===========================================================================
-- Calendar arithmetic (civil date <-> epoch day)
-- ===========================================================================

def msPerDay : Int := 86400000

/-- Epoch day number of the first day of month `m` of year `y`, plus the
day offset `d - 1` added by the caller; standard civil-from-days algorithm. -/
def daysFromCivil (y : Int) (m : Int) (d : Int) : Int :=
  let y2 : Int := if m ≤ 2 then y - 1 else y
  let era : Int := Int.fdiv y2 400
  let yoe : Int := y2 - era * 400
  let mp : Int := if m > 2 then m - 3 else m + 9
  let doy : Int := (153 * mp + 2) / 5 + d - 1
  let doe : Int := yoe * 365 + yoe / 4 - yoe / 100 + doy
  era * 146097 + doe - 719468

/-- Inverse of `daysFromCivil`: (year, month, day) of an epoch day number. -/
def civilFromDays (z0 : Int) : Int × Int × Int :=
  let z := z0 + 719468
  let era := Int.fdiv z 146097
  let doe := z - era * 146097
  let yoe := (doe - doe / 1460 + doe / 36524 - doe / 146096) / 365
  let y := yoe + era * 400
  let doy := doe - (365 * yoe + yoe / 4 - yoe / 100)
  let mp := (5 * doy + 2) / 153
  let d := doy - (153 * mp + 2) / 5 + 1
  let m := if mp < 10 then mp + 3 else mp - 9
  (if m ≤ 2 then y + 1 else y, m, d)

/-- Model of `Date.prototype.getFullYear` on a millisecond timestamp. -/
def getFullYear (t : Int) : Int :=
  (civilFromDays (Int.fdiv t msPerDay)).1

/-- Model of `setHours(0, 0, 0, 0)`: floor the timestamp to midnight. -/
def normalizeToMidnight (t : Int) : Int :=
  (Int.fdiv t msPerDay) * msPerDay

-- ===========================================================================
-- Surface-format scan:  /^[A-Za-z]{3}\s+\d{1,2},\s+\d{4}$/
-- ===========================================================================

def isAsciiAlpha (c : Char) : Bool :=
  ('A' ≤ c && c ≤ 'Z') || ('a' ≤ c && c ≤ 'z')

def isAsciiDigit (c : Char) : Bool :=
  '0' ≤ c && c ≤ '9'

/-- ASCII members of the JS regex class `\s`. -/
def isSpaceChar (c : Char) : Bool :=
  c = ' ' || c = '\t' || c = '\n' || c = '\r' || c = '\x0b' || c = '\x0c'

def digitVal (c : Char) : Nat := c.toNat - 48

/-- Drop a maximal run of whitespace. -/
def dropWsAll : List Char → List Char
  | c :: rest => if isSpaceChar c then dropWsAll rest else c :: rest
  | [] => []

/-- Require at least one whitespace character, then drop the whole run
(the regex piece `\s+`). -/
def dropWs1 : List Char → Option (List Char)
  | c :: rest => if isSpaceChar c then some (dropWsAll rest) else none
  | [] => none

/-- Read one or two digits (the regex piece `\d{1,2}`), greedily. -/
def readDay : List Char → Option (Nat × List Char)
  | c :: rest =>
    if isAsciiDigit c then
      match rest with
      | d :: rest2 =>
        if isAsciiDigit d then some (digitVal c * 10 + digitVal d, rest2)
        else some (digitVal c, rest)
      | [] => some (digitVal c, [])
    else none
  | [] => none

/-- Read exactly four digits ending the string (the regex piece `\d{4}$`). -/
def readYear4 : List Char → Option Nat
  | [a, b, c, d] =>
    if isAsciiDigit a && isAsciiDigit b && isAsciiDigit c && isAsciiDigit d then
      some (digitVal a * 1000 + digitVal b * 100 + digitVal c * 10 + digitVal d)
    else none
  | _ => none

/-- Scan a string against `/^[A-Za-z]{3}\s+\d{1,2},\s+\d{4}$/`, returning the
three month letters, the day and the year on a match. -/
def scanFormat (cs : List Char) : Option (Char × Char × Char × Nat × Nat) :=
  match cs with
  | m1 :: m2 :: m3 :: rest =>
    if isAsciiAlpha m1 && isAsciiAlpha m2 && isAsciiAlpha m3 then
      match dropWs1 rest with
      | some r1 =>
        match readDay r1 with
        | some (day, r2) =>
          match r2 with
          | ',' :: r3 =>
            match dropWs1 r3 with
            | some r4 => (readYear4 r4).map (fun y => (m1, m2, m3, day, y))
            | none => none
          | _ => none
        | none => none
      | none => none
    else none
  | _ => none

-- ===========================================================================
-- JS Date parsing of "MMM D, YYYY" strings (V8 legacy parser model)
-- ===========================================================================

def toLowerCh (c : Char) : Char :=
  if 'A' ≤ c && c ≤ 'Z' then Char.ofNat (c.toNat + 32) else c

/-- Month number (1..12) of a case-insensitive three-letter abbreviation. -/
def monthIndex (m1 m2 m3 : Char) : Option Nat :=
  match toLowerCh m1, toLowerCh m2, toLowerCh m3 with
  | 'j', 'a', 'n' => some 1
  | 'f', 'e', 'b' => some 2
  | 'm', 'a', 'r' => some 3
  | 'a', 'p', 'r' => some 4
  | 'm', 'a', 'y' => some 5
  | 'j', 'u', 'n' => some 6
  | 'j', 'u', 'l' => some 7
  | 'a', 'u', 'g' => some 8
  | 's', 'e', 'p' => some 9
  | 'o', 'c', 't' => some 10
  | 'n', 'o', 'v' => some 11
  | 'd', 'e', 'c' => some 12
  | _, _, _ => none

/-- Model of `new Date("MMM D, YYYY")` on a string that matched the surface
regex: the month token must be a real month abbreviation and the day must lie
in 1..31 (V8 rejects 0 and values above 31); day overflow past the month
length rolls over (`MakeDay`).  The result is the local-midnight timestamp. -/
def jsDateParse (m1 m2 m3 : Char) (day year : Nat) : Option Int :=
  match monthIndex m1 m2 m3 with
  | none => none
  | some m =>
    if 1 ≤ day && day ≤ 31 then
      some ((daysFromCivil (year : Int) (m : Int) 1 + ((day : Int) - 1)) * msPerDay)
    else none

-- ===========================================================================
-- parseShowDate  (archive-shows.ts lines 122-149)
-- ===========================================================================

structure DateParseResult where
  success : Bool
  date : Option Int
  original : String
  errors : List String
deriving DecidableEq

/-- Embedding of `parseShowDate`: surface-format check, `new Date` parse,
invalid-date check, then the 2020-2030 year sanity window. -/
def parseShowDate (dateString : String) : DateParseResult :=
  match scanFormat dateString.data with
  | none =>
    { success := false, date := none, original := dateString,
      errors := ["Invalid format: \"" ++ dateString ++ "\" (expected: \"MMM D, YYYY\")"] }
  | some (m1, m2, m3, day, year) =>
    match jsDateParse m1 m2 m3 day year with
    | none =>
      { success := false, date := none, original := dateString,
        errors := ["Could not parse: \"" ++ dateString ++ "\""] }
    | some t =>
      let year2 := getFullYear t
      if year2 < 2020 || year2 > 2030 then
        { success := false, date := none, original := dateString,
          errors := ["Unreasonable year: " ++ toString year2 ++ " in \"" ++ dateString ++ "\""] }
      else
        { success := true, date := some t, original := dateString, errors := [] }

-- ===========================================================================
-- shouldArchiveShow  (archive-shows.ts lines 155-201)
-- ===========================================================================

structure ArchiveDecision where
  shouldArchive : Bool
  reason : String
  showDate : Option Int
  daysAgo : Int
deriving DecidableEq

/-- Embedding of `shouldArchiveShow`: keep on parse failure, otherwise
normalize both dates to midnight and archive exactly the strictly-before
dates. -/
def shouldArchiveShow (showDateString : String) (referenceDate : Int) : ArchiveDecision :=
  let parseResult := parseShowDate showDateString
  match parseResult.date with
  | none =>
    { shouldArchive := false,
      reason := "Could not parse date safely: " ++ String.intercalate ", " parseResult.errors,
      showDate := none,
      daysAgo := 0 }
  | some d =>
    let today := normalizeToMidnight referenceDate
    let showDate := normalizeToMidnight d
    let timeDiff := today - showDate
    let daysAgo := Int.fdiv timeDiff msPerDay
    if showDate < today then
      { shouldArchive := true,
        reason := "Show was " ++ toString daysAgo ++ " day(s) ago",
        showDate := some showDate,
        daysAgo := daysAgo }
    else if showDate = today then
      { shouldArchive := false,
        reason := "Show is today (keeping in upcoming)",
        showDate := some showDate,
        daysAgo := 0 }
    else
      { shouldArchive := false,
        reason := "Show is " ++ toString daysAgo.natAbs ++ " day(s) in the future",
        showDate := some showDate,
        daysAgo := daysAgo }

-- ===========================================================================
-- Data model  (archive-shows.ts lines 36-55)
-- ===========================================================================

/-- A show record.  `extra` is the open-ended additional-properties bag
(`[key: string]: unknown` in the source), preserved verbatim. -/
structure Show where
  date : String
  time : String
  venue : String
  city : String
  status : String
  ticketUrl : Option String
  extra : List (String × String)
deriving DecidableEq

structure Settings where
  showPastShows : Bool
  maxUpcomingDisplay : Int
  maxPastDisplay : Int
  autoArchiveAfterDays : Int
deriving DecidableEq

structure ShowsData where
  upcoming : List Show
  past : List Show
  settings : Settings
deriving DecidableEq

structure ArchivedShowInfo where
  date : String
  venue : String
  city : String
  daysAgo : Int
deriving DecidableEq

structure ArchiveResult where
  originalUpcoming : Nat
  originalPast : Nat
  archived : Nat
  remaining : Nat
  totalPast : Nat
  archivedShows : List ArchivedShowInfo
  errors : List String
  warnings : List String
deriving DecidableEq

-- ===========================================================================
-- performSanityChecks  (archive-shows.ts lines 431-459)
-- ===========================================================================

/-- Embedding of `performSanityChecks`: the four advisory warning checks, in
source order. -/
def performSanityChecks (result : ArchiveResult) : List String :=
  (if result.remaining = 0 && result.archived > 0 then
    ["⚠️  All upcoming shows would be archived. This seems unusual."] else []) ++
  (if result.archived > 10 then
    ["⚠️  " ++ toString result.archived ++ " shows would be archived. This seems high."] else []) ++
  (result.archivedShows.filterMap (fun sh =>
    if sh.daysAgo < 0 then
      some ("❌ Future show would be archived: " ++ sh.date ++ " (" ++
            toString sh.daysAgo.natAbs ++ " days ahead)")
    else none)) ++
  (result.archivedShows.filterMap (fun sh =>
    if sh.daysAgo = 0 then
      some ("⚠️  Today's show would be archived: " ++ sh.date ++ ". This may not be desired.")
    else none))

-- ===========================================================================
-- archiveShows  (archive-shows.ts lines 464-538)
-- ===========================================================================

/-- The per-show archive flag used by the partition loop. -/
def archiveFlag (today : Int) (s : Show) : Bool :=
  (shouldArchiveShow s.date today).shouldArchive

/-- The partition loop of `archiveShows` (lines 485-495): one pass over
`upcoming` pushing each show onto `toArchive` or `toKeep`, preserving
relative order within each. -/
def partitionShows (shows : List Show) (today : Int) : List Show × List Show :=
  shows.partition (archiveFlag today)

def toArchiveOf (data : ShowsData) (today : Int) : List Show :=
  (partitionShows data.upcoming today).1

def toKeepOf (data : ShowsData) (today : Int) : List Show :=
  (partitionShows data.upcoming today).2

/-- Embedding of `archiveShows` for one already-loaded, already-validated
document.  `today` stands for the `new Date()` reference instant; in the
typed model every `ShowsData` passes `validateShowsStructure`, and file I/O
is abstracted away: the second component is the document handed to
`writeShowsFile` (`none` when no write occurs). -/
def archiveShows (data : ShowsData) (today : Int) (dryRun : Bool) :
    ArchiveResult × Option ShowsData :=
  let toArchive := toArchiveOf data today
  let toKeep := toKeepOf data today
  let result0 : ArchiveResult :=
    { originalUpcoming := data.upcoming.length,
      originalPast := data.past.length,
      archived := toArchive.length,
      remaining := toKeep.length,
      totalPast := data.past.length + toArchive.length,
      archivedShows := toArchive.map (fun sh =>
        { date := sh.date, venue := sh.venue, city := sh.city,
          daysAgo := (shouldArchiveShow sh.date today).daysAgo }),
      errors := [],
      warnings := [] }
  let result := { result0 with warnings := performSanityChecks result0 }
  if !dryRun && toArchive.length > 0 then
    (result, some { upcoming := toKeep,
                    past := toArchive.reverse ++ data.past,
                    settings := data.settings })
  else
    (result, none)

/-- The document as persisted after a run: the written document when a write
occurred, the untouched input otherwise. -/
def finalDoc (data : ShowsData) (today : Int) (dryRun : Bool) : ShowsData :=
  ((archiveShows data today dryRun).2).getD data

-- ===========================================================================
-- Concrete fixtures (used by witnesses and the C8 scenario)
-- ===========================================================================

/-- A show with the given date string and fixed values for the other
fields. -/
def mkShow (d : String) : Show :=
  { date := d, time := "20:00", venue := "V", city := "C", status := "tickets",
    ticketUrl := none, extra := [] }

def defaultSettings : Settings :=
  { showPastShows := true, maxUpcomingDisplay := 10, maxPastDisplay := 6,
    autoArchiveAfterDays := 1 }

/-- Midnight of 2025-12-06 (epoch day 20428), the reference day of the
spec scenario. -/
def refDec6 : Int := daysFromCivil 2025 12 6 * msPerDay

/-- The spec scenario document: Dec 4 / Dec 6 / Dec 11 against Dec 6. -/
def sampleDoc : ShowsData :=
  { upcoming := [mkShow "Dec 4, 2025", mkShow "Dec 6, 2025", mkShow "Dec 11, 2025"],
    past := [],
    settings := defaultSettings }

/-- Fifteen upcoming shows of which twelve are dated before 2025-12-06. -/
def bigDoc : ShowsData :=
  { upcoming := [mkShow "Nov 1, 2025", mkShow "Nov 2, 2025", mkShow "Nov 3, 2025",
                 mkShow "Nov 4, 2025", mkShow "Nov 5, 2025", mkShow "Nov 6, 2025",
                 mkShow "Nov 7, 2025", mkShow "Nov 8, 2025", mkShow "Nov 9, 2025",
                 mkShow "Nov 10, 2025", mkShow "Nov 11, 2025", mkShow "Nov 12, 2025",
                 mkShow "Dec 11, 2025", mkShow "Dec 12, 2025", mkShow "Dec 13, 2025"],
    past := [],
    settings := defaultSettings }

/-- Two shows with the same date string and different other fields. -/
def showA : Show := mkShow "Dec 4, 2025"

def showB : Show :=
  { date := "Dec 4, 2025", time := "21:30", venue := "Other Venue", city := "Elsewhere",
    status := "sold-out", ticketUrl := some "https://tickets.example",
    extra := [("note", "special"), ("supportAct", "someone")] }

-- ===========================================================================
-- writeShowsFile  (archive-shows.ts lines 277-315) over an abstract
-- filesystem, and the per-site loop of main (lines 567-655)
-- ===========================================================================

/-- The three files `writeShowsFile` touches: the target path, the adjacent
`.tmp` path and the `.backup` path.  `none` means the file does not exist. -/
structure FS where
  target : Option String
  tmp : Option String
  backup : Option String
deriving DecidableEq

/-- The five steps of the atomic write, in source order. -/
inductive WriteStep where
  | serializeTmp
  | validateTmp
  | copyBackup
  | renameTmp
  | cleanupBackup
deriving DecidableEq

/-- The catch handler of `writeShowsFile`: delete the temp file if present,
then if the `.backup` file exists copy it back over the target and delete
it. -/
def runCatch (fs : FS) : FS :=
  let fs1 : FS := { fs with tmp := none }
  match fs1.backup with
  | some b => { fs1 with target := some b, backup := none }
  | none => fs1

/-- Embedding of `writeShowsFile`.  `failAt` injects a failure at the named
step: that step has no effect and control transfers to the catch handler.
The function is declared `async` (line 277) but its body is fully
synchronous, so every filesystem effect — including the rollback in the
catch handler — happens during the call; the `throw err` after the rollback
does not throw into the caller but rejects the returned promise (second
component `true`).  The serialized document always re-parses, so the
validate step can only fail by injection. -/
def writeShowsFile (fs : FS) (newContent : String) (failAt : Option WriteStep) :
    FS × Bool :=
  if failAt = some WriteStep.serializeTmp then (runCatch fs, true) else
  let fs1 : FS := { fs with tmp := some newContent }
  if failAt = some WriteStep.validateTmp then (runCatch fs1, true) else
  if failAt = some WriteStep.copyBackup then (runCatch fs1, true) else
  let fs2 : FS :=
    match fs1.target with
    | some t => { fs1 with backup := some t }
    | none => fs1
  if failAt = some WriteStep.renameTmp then (runCatch fs2, true) else
  let fs3 : FS := { fs2 with target := fs2.tmp, tmp := none }
  if failAt = some WriteStep.cleanupBackup then (runCatch fs3, true) else
  ({ fs3 with backup := none }, false)

/-- One site target as seen by the main loop: its filesystem state, the
content to write and an optional injected failure. -/
structure SiteSpec where
  fs : FS
  newContent : String
  failAt : Option WriteStep
deriving DecidableEq

/-- Outcome of the write tail of one site's iteration of main's loop. -/
structure SiteOutcome where
  fsAfter : FS
  siteErrorCaught : Bool
  unhandledRejection : Bool
deriving DecidableEq

/-- Embedding of the write path of one iteration of main's site loop
(lines 579-654).  `archiveShows` is synchronous and calls the async
`writeShowsFile` without `await` (line 534), so a write failure rejects a
floating promise instead of throwing into `archiveShows`: main's per-site
`catch` (lines 651-654) never fires for it (`siteErrorCaught := false`), the
site's run completes as if successful, and the rejection is left to surface
at process level as an unhandled promise rejection. -/
def processSite (site : SiteSpec) : SiteOutcome :=
  let out := writeShowsFile site.fs site.newContent site.failAt
  { fsAfter := out.1, siteErrorCaught := false, unhandledRejection := out.2 }

/-- Main's site loop is fully synchronous, so every site is processed before
the event loop turns; floating write-failure promises reject only after the
loop, surfacing as a process-level unhandled rejection (second component)
rather than as an error reported against the failing site. -/
def runMain (sites : List SiteSpec) : List SiteOutcome × Bool :=
  let outcomes := sites.map processSite
  (outcomes, outcomes.any (fun o => o.unhandledRejection))

-- ===========================================================================
-- Helper lemmas
-- ===========================================================================

theorem msPerDay_pos : (0 : Int) < msPerDay := by decide

/-- Midnight-normalized timestamps differ by an exact multiple of a day. -/
theorem normalize_sub_eq (a b : Int) :
    normalizeToMidnight a - normalizeToMidnight b =
      (Int.fdiv a msPerDay - Int.fdiv b msPerDay) * msPerDay := by
  unfold normalizeToMidnight
  ring


/-- Projection lemma: on a parsed date the archive flag is exactly the
strictly-before test on midnight-normalized timestamps. -/
theorem shouldArchiveShow_flag_eq (s : String) (ref t : Int)
    (ht : (parseShowDate s).date = some t) :
    (shouldArchiveShow s ref).shouldArchive =
      decide (normalizeToMidnight t < normalizeToMidnight ref) := by
  simp only [shouldArchiveShow, ht]
  split_ifs with h1 h2
  · simp [h1]
  · simp [h2]
  · simp [h1]

/-- Projection lemma: on a parsed date `daysAgo` is the difference of the
epoch-day numbers. -/
theorem shouldArchiveShow_daysAgo_eq (s : String) (ref t : Int)
    (ht : (parseShowDate s).date = some t) :
    (shouldArchiveShow s ref).daysAgo = Int.fdiv ref msPerDay - Int.fdiv t msPerDay := by
  simp only [shouldArchiveShow, ht]
  have e2 : Int.fdiv (normalizeToMidnight ref - normalizeToMidnight t) msPerDay
      = Int.fdiv ref msPerDay - Int.fdiv t msPerDay := by
    rw [normalize_sub_eq, Int.mul_fdiv_cancel _ (by decide : msPerDay ≠ 0)]
  split_ifs with h1 h2
  · exact e2
  · have h3 : Int.fdiv t msPerDay = Int.fdiv ref msPerDay := by
      have h4 := h2
      unfold normalizeToMidnight at h4
      exact mul_right_cancel₀ (by decide : msPerDay ≠ 0) h4
    simp [h3]
  · exact e2

/-- Midnight-normalized order is the epoch-day order. -/
theorem normalize_lt_iff (a b : Int) :
    normalizeToMidnight a < normalizeToMidnight b ↔
      Int.fdiv a msPerDay < Int.fdiv b msPerDay := by
  unfold normalizeToMidnight
  exact mul_lt_mul_right msPerDay_pos

theorem normalize_eq_iff (a b : Int) :
    normalizeToMidnight a = normalizeToMidnight b ↔
      Int.fdiv a msPerDay = Int.fdiv b msPerDay := by
  unfold normalizeToMidnight
  constructor
  · exact fun h => mul_right_cancel₀ (by decide : msPerDay ≠ 0) h
  · exact fun h => by rw [h]

-- ===========================================================================
-- Claim C1
-- ===========================================================================

/-- C1: for every show date string that parses successfully (valid format,
parseable, year in the sanity window) and every reference date, after
normalizing both dates to midnight the decision of `shouldArchiveShow` is
archive if and only if the show date is strictly before the reference date; a
show date equal to the reference date yields keep, and a future show date
yields keep. -/
theorem c1_archive_iff_strictly_before (s : String) (ref t : Int)
    (_hs : (parseShowDate s).success = true)
    (ht : (parseShowDate s).date = some t) :
    ((shouldArchiveShow s ref).shouldArchive = true ↔
      normalizeToMidnight t < normalizeToMidnight ref) ∧
    (normalizeToMidnight t = normalizeToMidnight ref →
      (shouldArchiveShow s ref).shouldArchive = false) ∧
    (normalizeToMidnight ref < normalizeToMidnight t →
      (shouldArchiveShow s ref).shouldArchive = false) := by
  rw [shouldArchiveShow_flag_eq s ref t ht]
  refine ⟨by simp, fun h => by simp [h], fun h => by simp; omega⟩

theorem c1_witness :
    (parseShowDate "Dec 4, 2025").success = true ∧
    (parseShowDate "Dec 4, 2025").date = some (20426 * msPerDay) ∧
    (((shouldArchiveShow "Dec 4, 2025" (20428 * msPerDay)).shouldArchive = true ↔
       normalizeToMidnight (20426 * msPerDay) < normalizeToMidnight (20428 * msPerDay)) ∧
     (normalizeToMidnight (20426 * msPerDay) = normalizeToMidnight (20428 * msPerDay) →
       (shouldArchiveShow "Dec 4, 2025" (20428 * msPerDay)).shouldArchive = false) ∧
     (normalizeToMidnight (20428 * msPerDay) < normalizeToMidnight (20426 * msPerDay) →
       (shouldArchiveShow "Dec 4, 2025" (20428 * msPerDay)).shouldArchive = false)) :=
  ⟨by decide, by decide,
   c1_archive_iff_strictly_before "Dec 4, 2025" (20428 * msPerDay) (20426 * msPerDay)
     (by decide) (by decide)⟩

-- ===========================================================================
-- Claim C9
-- ===========================================================================

/-- C9: for every show date string that parses successfully, the `daysAgo`
value returned by `shouldArchiveShow` equals the whole-day difference
(reference today minus show date, both normalized to midnight): strictly
negative for future dates, zero for a show dated today, strictly positive for
past dates. -/
theorem c9_daysAgo_whole_day_difference (s : String) (ref t : Int)
    (_hs : (parseShowDate s).success = true)
    (ht : (parseShowDate s).date = some t) :
    (shouldArchiveShow s ref).daysAgo =
      (normalizeToMidnight ref - normalizeToMidnight t) / msPerDay ∧
    (normalizeToMidnight ref < normalizeToMidnight t →
      (shouldArchiveShow s ref).daysAgo < 0) ∧
    (normalizeToMidnight ref = normalizeToMidnight t →
      (shouldArchiveShow s ref).daysAgo = 0) ∧
    (normalizeToMidnight t < normalizeToMidnight ref →
      0 < (shouldArchiveShow s ref).daysAgo) := by
  rw [shouldArchiveShow_daysAgo_eq s ref t ht]
  have hed : (normalizeToMidnight ref - normalizeToMidnight t) / msPerDay =
      Int.fdiv ref msPerDay - Int.fdiv t msPerDay := by
    rw [normalize_sub_eq, Int.mul_ediv_cancel _ (by decide : msPerDay ≠ 0)]
  refine ⟨hed.symm, ?_, ?_, ?_⟩
  · intro h
    rw [normalize_lt_iff] at h
    omega
  · intro h
    rw [normalize_eq_iff] at h
    omega
  · intro h
    rw [normalize_lt_iff] at h
    omega

theorem c9_witness :
    (parseShowDate "Dec 4, 2025").success = true ∧
    (parseShowDate "Dec 4, 2025").date = some (20426 * msPerDay) ∧
    ((shouldArchiveShow "Dec 4, 2025" (20428 * msPerDay)).daysAgo =
       (normalizeToMidnight (20428 * msPerDay) - normalizeToMidnight (20426 * msPerDay)) / msPerDay ∧
     (normalizeToMidnight (20428 * msPerDay) < normalizeToMidnight (20426 * msPerDay) →
       (shouldArchiveShow "Dec 4, 2025" (20428 * msPerDay)).daysAgo < 0) ∧
     (normalizeToMidnight (20428 * msPerDay) = normalizeToMidnight (20426 * msPerDay) →
       (shouldArchiveShow "Dec 4, 2025" (20428 * msPerDay)).daysAgo = 0) ∧
     (normalizeToMidnight (20426 * msPerDay) < normalizeToMidnight (20428 * msPerDay) →
       0 < (shouldArchiveShow "Dec 4, 2025" (20428 * msPerDay)).daysAgo)) :=
  ⟨by decide, by decide,
   c9_daysAgo_whole_day_difference "Dec 4, 2025" (20428 * msPerDay) (20426 * msPerDay)
     (by decide) (by decide)⟩

-- ===========================================================================
-- Claim C3
-- ===========================================================================

theorem append_ne_empty (a b : String) (ha : a.length ≠ 0) : a ++ b ≠ "" := by
  intro h
  have h2 := congrArg String.length h
  rw [String.length_append] at h2
  have h3 : String.length "" = 0 := rfl
  omega

theorem append3_ne_empty (a b c : String) (ha : a.length ≠ 0) : (a ++ b) ++ c ≠ "" := by
  apply append_ne_empty
  rw [String.length_append]
  omega

/-- The `success` flag of `parseShowDate` is exactly presence of a date. -/
theorem parseShowDate_success_eq (s : String) :
    (parseShowDate s).success = ((parseShowDate s).date).isSome := by
  unfold parseShowDate
  split
  · rfl
  · split
    · rfl
    · dsimp only
      split <;> rfl

/-- A parse failure is always kept (`shouldArchive = false`). -/
theorem keep_of_parse_none (s : String) (ref : Int)
    (h : (parseShowDate s).date = none) :
    (shouldArchiveShow s ref).shouldArchive = false := by
  simp only [shouldArchiveShow, h]

/-- C3: for every input string and reference date, `shouldArchiveShow`
returns a decision with a human-readable (nonempty) reason and never throws
(it is a total function); every string failing the surface-format check, the
calendar parse, or the 2020-2030 year window yields `shouldArchive = false`,
and in particular "13/25/2025", "Dec 32, 2025", "next tuesday" and
"Dec 4 2025" each yield keep. -/
theorem c3_never_throws_unparseable_kept (s : String) (ref : Int) :
    (shouldArchiveShow s ref).reason ≠ "" ∧
    ((parseShowDate s).success = false → (shouldArchiveShow s ref).shouldArchive = false) ∧
    (shouldArchiveShow "13/25/2025" ref).shouldArchive = false ∧
    (shouldArchiveShow "Dec 32, 2025" ref).shouldArchive = false ∧
    (shouldArchiveShow "next tuesday" ref).shouldArchive = false ∧
    (shouldArchiveShow "Dec 4 2025" ref).shouldArchive = false := by
  refine ⟨?_, ?_, ?_, ?_, ?_, ?_⟩
  · unfold shouldArchiveShow
    cases hd : (parseShowDate s).date with
    | none =>
      simp only [hd]
      exact append_ne_empty _ _ (by decide)
    | some d =>
      simp only [hd]
      split_ifs with h1 h2
      · exact append3_ne_empty _ _ _ (by decide)
      · dsimp only
        decide
      · exact append3_ne_empty _ _ _ (by decide)
  · intro h
    apply keep_of_parse_none
    have he := parseShowDate_success_eq s
    rw [h] at he
    cases hc : (parseShowDate s).date with
    | none => rfl
    | some t => rw [hc] at he; simp at he
  · exact keep_of_parse_none _ ref (by decide)
  · exact keep_of_parse_none _ ref (by decide)
  · exact keep_of_parse_none _ ref (by decide)
  · exact keep_of_parse_none _ ref (by decide)

theorem c3_witness :
    (shouldArchiveShow "Dec 4 2025" 0).reason ≠ "" ∧
    ((parseShowDate "Dec 4 2025").success = false →
      (shouldArchiveShow "Dec 4 2025" 0).shouldArchive = false) ∧
    (shouldArchiveShow "13/25/2025" 0).shouldArchive = false ∧
    (shouldArchiveShow "Dec 32, 2025" 0).shouldArchive = false ∧
    (shouldArchiveShow "next tuesday" 0).shouldArchive = false ∧
    (shouldArchiveShow "Dec 4 2025" 0).shouldArchive = false :=
  c3_never_throws_unparseable_kept "Dec 4 2025" 0

-- ===========================================================================
-- Partition and finalDoc helper lemmas
-- ===========================================================================

theorem partition_fst (l : List Show) (today : Int) :
    (partitionShows l today).1 = l.filter (archiveFlag today) := by
  simp [partitionShows]

theorem partition_snd (l : List Show) (today : Int) :
    (partitionShows l today).2 = l.filter (fun s => !(archiveFlag today s)) := by
  simp only [partitionShows, List.partition_eq_filter_filter]
  rfl

/-- Case analysis of the persisted document produced by `archiveShows`. -/
theorem finalDoc_eq (data : ShowsData) (today : Int) (dryRun : Bool) :
    finalDoc data today dryRun =
      if !dryRun && (toArchiveOf data today).length > 0 then
        { upcoming := toKeepOf data today,
          past := (toArchiveOf data today).reverse ++ data.past,
          settings := data.settings }
      else data := by
  unfold finalDoc archiveShows
  dsimp only
  split <;> rfl

/-- The keep side followed by the reversed archive side is a permutation of
the input list. -/
theorem keep_archive_perm (l : List Show) (today : Int) :
    List.Perm ((partitionShows l today).2 ++ (partitionShows l today).1.reverse) l := by
  have h1 : List.Perm ((partitionShows l today).1.reverse) ((partitionShows l today).1) :=
    List.reverse_perm _
  have h2 : List.Perm ((partitionShows l today).2 ++ (partitionShows l today).1.reverse)
      ((partitionShows l today).2 ++ (partitionShows l today).1) :=
    List.Perm.append_left _ h1
  have h3 : List.Perm ((partitionShows l today).2 ++ (partitionShows l today).1)
      ((partitionShows l today).1 ++ (partitionShows l today).2) :=
    List.perm_append_comm
  have h4 : List.Perm ((partitionShows l today).1 ++ (partitionShows l today).2) l := by
    rw [partition_fst, partition_snd]
    exact List.filter_append_perm _ l
  exact (h2.trans h3).trans h4

/-- Conservation: the persisted document's shows are a permutation of the
input document's shows, in every mode. -/
theorem archive_perm (data : ShowsData) (today : Int) (dryRun : Bool) :
    List.Perm ((finalDoc data today dryRun).upcoming ++ (finalDoc data today dryRun).past)
      (data.upcoming ++ data.past) := by
  rw [finalDoc_eq]
  split_ifs with h
  · dsimp only
    rw [← List.append_assoc]
    exact List.Perm.append_right _ (keep_archive_perm data.upcoming today)
  · exact List.Perm.refl _

/-- When nothing is slated for archiving, the keep side is the whole list. -/
theorem keep_eq_of_archive_nil (data : ShowsData) (today : Int)
    (h : toArchiveOf data today = []) : toKeepOf data today = data.upcoming := by
  unfold toKeepOf
  rw [partition_snd, List.filter_eq_self]
  intro a ha
  unfold toArchiveOf at h
  rw [partition_fst, List.filter_eq_nil_iff] at h
  simp [h a ha]

theorem written_none_of_archive_nil (data : ShowsData) (today : Int) (dryRun : Bool)
    (h : toArchiveOf data today = []) : (archiveShows data today dryRun).2 = none := by
  unfold archiveShows
  simp [h]

theorem archived_eq_length (data : ShowsData) (today : Int) (dryRun : Bool) :
    (archiveShows data today dryRun).1.archived = (toArchiveOf data today).length := by
  unfold archiveShows
  dsimp only
  split <;> rfl

-- ===========================================================================
-- Claim C2
-- ===========================================================================

/-- C2: for every valid document, an apply-mode run of `archiveShows`
preserves `count(upcoming) + count(past)`; the resulting document's
`upcoming` is the kept shows and its `past` is the archived shows prepended,
with no show created, destroyed, or duplicated (the final shows are a
permutation of the original shows). -/
theorem c2_conservation (data : ShowsData) (today : Int) :
    (finalDoc data today false).upcoming.length + (finalDoc data today false).past.length =
      data.upcoming.length + data.past.length ∧
    (finalDoc data today false).upcoming = toKeepOf data today ∧
    (finalDoc data today false).past = (toArchiveOf data today).reverse ++ data.past ∧
    List.Perm ((finalDoc data today false).upcoming ++ (finalDoc data today false).past)
      (data.upcoming ++ data.past) := by
  have hperm := archive_perm data today false
  refine ⟨?_, ?_, ?_, hperm⟩
  · have := hperm.length_eq
    simpa [List.length_append] using this
  · rw [finalDoc_eq]
    split_ifs with h
    · rfl
    · have hnil : toArchiveOf data today = [] := by
        by_contra hc
        apply h
        simp [List.length_pos.mpr hc]
      exact (keep_eq_of_archive_nil data today hnil).symm
  · rw [finalDoc_eq]
    split_ifs with h
    · rfl
    · have hnil : toArchiveOf data today = [] := by
        by_contra hc
        apply h
        simp [List.length_pos.mpr hc]
      rw [hnil]
      rfl

-- ===========================================================================
-- Claim C4
-- ===========================================================================

/-- C4: for every valid document whose `toArchive` is non-empty, an
apply-mode run produces `past` equal to `reverse(toArchive)` prepended to the
previous `past`, and `upcoming` equal to `toKeep`; both partitions preserve
the original relative order (they are sublists of the original
`upcoming`). -/
theorem c4_order_preservation (data : ShowsData) (today : Int)
    (h : toArchiveOf data today ≠ []) :
    (finalDoc data today false).past = (toArchiveOf data today).reverse ++ data.past ∧
    (finalDoc data today false).upcoming = toKeepOf data today ∧
    List.Sublist (toArchiveOf data today) data.upcoming ∧
    List.Sublist (toKeepOf data today) data.upcoming := by
  have hcond : (!false && (toArchiveOf data today).length > 0) = true := by
    simp [List.length_pos.mpr h]
  refine ⟨?_, ?_, ?_, ?_⟩
  · rw [finalDoc_eq, if_pos hcond]
  · rw [finalDoc_eq, if_pos hcond]
  · unfold toArchiveOf
    rw [partition_fst]
    exact List.filter_sublist _
  · unfold toKeepOf
    rw [partition_snd]
    exact List.filter_sublist _

theorem c4_witness :
    toArchiveOf sampleDoc refDec6 ≠ [] ∧
    ((finalDoc sampleDoc refDec6 false).past =
       (toArchiveOf sampleDoc refDec6).reverse ++ sampleDoc.past ∧
     (finalDoc sampleDoc refDec6 false).upcoming = toKeepOf sampleDoc refDec6 ∧
     List.Sublist (toArchiveOf sampleDoc refDec6) sampleDoc.upcoming ∧
     List.Sublist (toKeepOf sampleDoc refDec6) sampleDoc.upcoming) :=
  ⟨by decide, c4_order_preservation sampleDoc refDec6 (by decide)⟩

-- ===========================================================================
-- Claim C5
-- ===========================================================================

theorem archive_of_keep_nil (l : List Show) (today : Int) :
    (l.filter (fun s => !(archiveFlag today s))).filter (archiveFlag today) = [] := by
  rw [List.filter_filter]
  simp

/-- After an apply-mode run nothing is left to archive on the same day. -/
theorem second_run_archive_nil (data : ShowsData) (today : Int) :
    toArchiveOf (finalDoc data today false) today = [] := by
  rw [finalDoc_eq]
  split_ifs with h
  · unfold toArchiveOf
    rw [partition_fst]
    dsimp only
    unfold toKeepOf
    rw [partition_snd]
    exact archive_of_keep_nil data.upcoming today
  · have hnil : toArchiveOf data today = [] := by
      by_contra hc
      apply h
      simp [List.length_pos.mpr hc]
    exact hnil

/-- C5: for every valid document with empty `toArchive`, an apply-mode run
performs no write and leaves the document unchanged; and a second apply-mode
run on the same reference day, after a first apply-mode run, writes nothing
and reports zero archived. -/
theorem c5_idempotent_noop (data : ShowsData) (today : Int) :
    (toArchiveOf data today = [] →
      (archiveShows data today false).2 = none ∧ finalDoc data today false = data) ∧
    (archiveShows (finalDoc data today false) today false).2 = none ∧
    (archiveShows (finalDoc data today false) today false).1.archived = 0 := by
  refine ⟨fun h => ⟨written_none_of_archive_nil data today false h, ?_⟩, ?_, ?_⟩
  · unfold finalDoc
    rw [written_none_of_archive_nil data today false h]
    rfl
  · exact written_none_of_archive_nil _ today false (second_run_archive_nil data today)
  · rw [archived_eq_length, second_run_archive_nil data today]
    rfl

theorem c5_witness :
    ((toArchiveOf sampleDoc refDec6 = [] →
       (archiveShows sampleDoc refDec6 false).2 = none ∧
       finalDoc sampleDoc refDec6 false = sampleDoc) ∧
     (archiveShows (finalDoc sampleDoc refDec6 false) refDec6 false).2 = none ∧
     (archiveShows (finalDoc sampleDoc refDec6 false) refDec6 false).1.archived = 0) :=
  c5_idempotent_noop sampleDoc refDec6

-- ===========================================================================
-- Claim C6
-- ===========================================================================

/-- C6: for every run in any mode, the settings object of the persisted
document is identical before and after the run, and the persisted document's
shows are exactly the original Show records (each with all fields unchanged,
known and unknown alike): a show lives in the output iff it lives in the
input, only the array it lives in may change. -/
theorem c6_settings_and_fields_passthrough (data : ShowsData) (today : Int) (dryRun : Bool) :
    (finalDoc data today dryRun).settings = data.settings ∧
    ∀ sh : Show,
      (sh ∈ (finalDoc data today dryRun).upcoming ∨ sh ∈ (finalDoc data today dryRun).past) ↔
      (sh ∈ data.upcoming ∨ sh ∈ data.past) := by
  constructor
  · rw [finalDoc_eq]
    split_ifs <;> rfl
  · intro sh
    have hp := archive_perm data today dryRun
    rw [← List.mem_append, ← List.mem_append]
    exact hp.mem_iff

-- ===========================================================================
-- Claim C8
-- ===========================================================================

/-- In apply mode a write occurs exactly when `toArchive` is non-empty;
warnings play no part in the decision. -/
theorem apply_written_none_iff (data : ShowsData) (today : Int) :
    ((archiveShows data today false).2 = none ↔ toArchiveOf data today = []) := by
  constructor
  · intro h
    by_contra hc
    have hcond : (!false && (toArchiveOf data today).length > 0) = true := by
      simp [List.length_pos.mpr hc]
    unfold archiveShows at h
    dsimp only at h
    rw [if_pos hcond] at h
    simp at h
  · exact written_none_of_archive_nil data today false

/-- C8: sanity-check warnings are advisory and never block the write: the
write decision depends only on `toArchive` being non-empty, and on a document
with 15 upcoming shows of which 12 are dated before the reference today the
run emits the more-than-10-shows warning yet, in apply mode, still archives
all 12 shows. -/
theorem c8_warnings_advisory (data : ShowsData) (today : Int) :
    ((archiveShows data today false).2 = none ↔ toArchiveOf data today = []) ∧
    "⚠️  12 shows would be archived. This seems high." ∈
      (archiveShows bigDoc refDec6 false).1.warnings ∧
    (archiveShows bigDoc refDec6 false).1.archived = 12 ∧
    (finalDoc bigDoc refDec6 false).upcoming.length = 3 ∧
    (finalDoc bigDoc refDec6 false).past.length = 12 := by
  refine ⟨apply_written_none_iff data today, ?_, ?_, ?_, ?_⟩
  · decide
  · decide
  · decide
  · decide

-- ===========================================================================
-- Claim C10
-- ===========================================================================

/-- C10: the archive decision depends only on the show's date string and the
reference date: two Show records with identical date strings get identical
decisions (same flag, reason and daysAgo) whatever their other fields, and
the upcoming/past partition, viewed through the date strings, is a
deterministic function of the sequence of date strings and the reference
date. -/
theorem c10_decision_only_depends_on_date (ref : Int) (s1 s2 : Show)
    (h : s1.date = s2.date) :
    shouldArchiveShow s1.date ref = shouldArchiveShow s2.date ref ∧
    ∀ l : List Show,
      (partitionShows l ref).1.map Show.date =
        (l.map Show.date).filter (fun d => (shouldArchiveShow d ref).shouldArchive) ∧
      (partitionShows l ref).2.map Show.date =
        (l.map Show.date).filter (fun d => !(shouldArchiveShow d ref).shouldArchive) := by
  constructor
  · rw [h]
  · intro l
    constructor
    · rw [partition_fst, List.filter_map]
      rfl
    · rw [partition_snd, List.filter_map]
      rfl

theorem c10_witness :
    showA.date = showB.date ∧
    (shouldArchiveShow showA.date refDec6 = shouldArchiveShow showB.date refDec6 ∧
     ∀ l : List Show,
       (partitionShows l refDec6).1.map Show.date =
         (l.map Show.date).filter (fun d => (shouldArchiveShow d refDec6).shouldArchive) ∧
       (partitionShows l refDec6).2.map Show.date =
         (l.map Show.date).filter (fun d => !(shouldArchiveShow d refDec6).shouldArchive)) :=
  ⟨by decide, c10_decision_only_depends_on_date refDec6 showA showB (by decide)⟩

-- ===========================================================================
-- Claim C7
-- ===========================================================================

/-- C7: evaluation of the embedding at the failing input — a failure
injected at the rename step, clean initial state, target content "old".  The
rollback mechanics the claim describes do hold: the temp file is deleted,
the `.backup` copy is restored over the target and deleted, and the target
keeps its original content.  But the failure is not caught at single-site
granularity as the claim states: `writeShowsFile` is `async` and called
without `await`, so it only rejects a floating promise, main's per-site
catch never fires, the run completes over both sites as if successful, and
the rejection surfaces as a process-level unhandled rejection instead of a
fatal error for that site. -/
theorem c7_missing_await_bug :
    (writeShowsFile ⟨some "old", none, none⟩ "new" (some WriteStep.renameTmp)).1 =
      ⟨some "old", none, none⟩ ∧
    (writeShowsFile ⟨some "old", none, none⟩ "new" (some WriteStep.renameTmp)).2 = true ∧
    (processSite ⟨⟨some "old", none, none⟩, "new", some WriteStep.renameTmp⟩).siteErrorCaught
      = false ∧
    (processSite ⟨⟨some "old", none, none⟩, "new", some WriteStep.renameTmp⟩).unhandledRejection
      = true ∧
    (runMain [⟨⟨some "old", none, none⟩, "new", some WriteStep.renameTmp⟩,
              ⟨⟨some "ok", none, none⟩, "new2", none⟩]).1.length = 2 ∧
    (runMain [⟨⟨some "old", none, none⟩, "new", some WriteStep.renameTmp⟩,
              ⟨⟨some "ok", none, none⟩, "new2", none⟩]).2 = true :=
  ⟨by decide, by decide, by decide, by decide, by decide, by decide⟩

theorem c2_witness :
    ((finalDoc sampleDoc refDec6 false).upcoming.length +
       (finalDoc sampleDoc refDec6 false).past.length =
       sampleDoc.upcoming.length + sampleDoc.past.length ∧
     (finalDoc sampleDoc refDec6 false).upcoming = toKeepOf sampleDoc refDec6 ∧
     (finalDoc sampleDoc refDec6 false).past =
       (toArchiveOf sampleDoc refDec6).reverse ++ sampleDoc.past ∧
     List.Perm ((finalDoc sampleDoc refDec6 false).upcoming ++
       (finalDoc sampleDoc refDec6 false).past) (sampleDoc.upcoming ++ sampleDoc.past)) :=
  c2_conservation sampleDoc refDec6

theorem c6_witness :
    ((finalDoc sampleDoc refDec6 false).settings = sampleDoc.settings ∧
     ∀ sh : Show,
       (sh ∈ (finalDoc sampleDoc refDec6 false).upcoming ∨
        sh ∈ (finalDoc sampleDoc refDec6 false).past) ↔
       (sh ∈ sampleDoc.upcoming ∨ sh ∈ sampleDoc.past)) :=
  c6_settings_and_fields_passthrough sampleDoc refDec6 false

theorem c8_witness :
    (((archiveShows sampleDoc refDec6 false).2 = none ↔
       toArchiveOf sampleDoc refDec6 = []) ∧
     "⚠️  12 shows would be archived. This seems high." ∈
       (archiveShows bigDoc refDec6 false).1.warnings ∧
     (archiveShows bigDoc refDec6 false).1.archived = 12 ∧
     (finalDoc bigDoc refDec6 false).upcoming.length = 3 ∧
     (finalDoc bigDoc refDec6 false).past.length = 12) :=
  c8_warnings_advisory sampleDoc refDec6
